import Mathlib

/-
Verification development for the microdos-api repository.

Part 1 embeds the dose calculator: the static tables of
src/types/microdose.ts and the pure methods of the class
MicrodoseCalculator in src/services/microdoseCalculator.ts
(calculate, validateParams).

Part 2 embeds the protocol event generator generateProtocolEvents of
src/modules/protocol/routes.ts.

Modelling conventions:
  - JavaScript numbers are modelled as exact rationals; JavaScript
    Math.round (round half toward positive infinity) is roundHalfUp.
  - The substance and goal fields carry the union types declared in
    MicrodoseCalculationParams, so they become inductive types; the
    gender and intakeForm fields are validated upstream only as strings
    (the route schema checks z.string().min(1) for intakeForm), so they
    stay String and the runtime fallback paths of the source remain
    reachable.
  - Calendar dates normalised to UTC midnight are modelled as integer
    day numbers (days since the Unix epoch, which fell on a Thursday);
    the JavaScript getDay weekday of day d is then (d + 4) mod 7.
  - Presentation-only outputs (the explanation text and the
    recommendation strings) and persistence side effects are outside
    every claim and are omitted from the embedded result records.
-/

namespace Microdose

/-- The substance union type of MicrodoseCalculationParams. -/
inductive Substance
  | psilocybin
  | lsd
  | amanita
  | ketamine
deriving DecidableEq, Repr

/-- The goal union type of MicrodoseCalculationParams. -/
inductive Goal
  | sub_perceptual
  | standard
  | upper_microdose
deriving DecidableEq, Repr

/-- The two dose units of the static substance table: ug stands for the
microgram unit written µg in the source, mg for milligrams. -/
inductive DoseUnit
  | mg
  | ug
deriving DecidableEq, Repr

/-- One row of the SUBSTANCE_BASE_DOSES table. -/
structure SubstanceData where
  baseDose : ℚ
  unit : DoseUnit
  description : String
deriving DecidableEq, Repr

/-- The SUBSTANCE_BASE_DOSES table of src/types/microdose.ts. -/
def SUBSTANCE_BASE_DOSES : Substance → SubstanceData
  | Substance.psilocybin => ⟨200, DoseUnit.mg, "Dried Psilocybin mushrooms"⟩
  | Substance.lsd => ⟨10, DoseUnit.ug, "LSD"⟩
  | Substance.amanita => ⟨100, DoseUnit.mg, "Dried Amanita muscaria"⟩
  | Substance.ketamine => ⟨10, DoseUnit.mg, "Ketamine"⟩

/-- The GOAL_FACTORS table of src/types/microdose.ts. -/
def GOAL_FACTORS : Goal → ℚ
  | Goal.sub_perceptual => 1/2
  | Goal.standard => 1
  | Goal.upper_microdose => 2

/-- The INTAKE_FORM_FACTORS table of src/types/microdose.ts: a single
map keyed by the intake form name alone, with no substance key. -/
def INTAKE_FORM_FACTORS : String → Option ℚ
  | "dried_mushrooms" => some 1
  | "fresh_mushrooms" => some 10
  | "truffles" => some 2
  | "pure_extract" => some (1/100)
  | "blotter" => some 1
  | "liquid" => some 1
  | "capsules" => some 1
  | "liquid_ketamine" => some 1
  | _ => none

/-- JavaScript Math.round: round half toward positive infinity. -/
def roundHalfUp (x : ℚ) : ℤ := ⌊x + 1/2⌋

/-- The MicrodoseCalculationParams record (weight in kilograms). -/
structure MicrodoseCalculationParams where
  gender : String
  weight : ℚ
  substance : Substance
  intakeForm : String
  sensitivity : ℚ
  goal : Goal
  experience : Option String := none
  currentMedication : Option String := none
deriving DecidableEq, Repr

/-- The numeric fields of MicrodoseCalculationResult (the explanation
text and the recommendations list are presentation only and omitted). -/
structure MicrodoseCalculationResult where
  calculatedDose : ℚ
  doseUnit : DoseUnit
  baseDose : ℚ
  weightFactor : ℚ
  sensitivityFactor : ℚ
  goalFactor : ℚ
  intakeFormFactor : ℚ
deriving DecidableEq, Repr

/-- The local variable calculatedDose of MicrodoseCalculator.calculate
before rounding: baseDose * weightFactor * sensitivityFactor
* goalFactor * intakeFormFactor, with the intake form factor looked up
in INTAKE_FORM_FACTORS and defaulting to 1.0 when absent (the
expression INTAKE_FORM_FACTORS[intakeForm] || 1.0 of the source; no
table entry is zero, so getD is a faithful translation of ||). -/
def rawDose (params : MicrodoseCalculationParams) : ℚ :=
  (SUBSTANCE_BASE_DOSES params.substance).baseDose
    * (params.weight / 70)
    * params.sensitivity
    * GOAL_FACTORS params.goal
    * (INTAKE_FORM_FACTORS params.intakeForm).getD 1

/-- MicrodoseCalculator.calculate. The source rounds to one decimal
when substance === lsd and to a whole number otherwise. -/
def calculate (params : MicrodoseCalculationParams) :
    MicrodoseCalculationResult :=
  let substanceData := SUBSTANCE_BASE_DOSES params.substance
  let baseDose := substanceData.baseDose
  let weightFactor := params.weight / 70
  let sensitivityFactor := params.sensitivity
  let goalFactor := GOAL_FACTORS params.goal
  let intakeFormFactor := (INTAKE_FORM_FACTORS params.intakeForm).getD 1
  let calculatedDose := rawDose params
  let roundedDose : ℚ :=
    if params.substance = Substance.lsd then
      (roundHalfUp (calculatedDose * 10) : ℚ) / 10
    else
      (roundHalfUp calculatedDose : ℚ)
  { calculatedDose := roundedDose
    doseUnit := substanceData.unit
    baseDose := baseDose
    weightFactor := weightFactor
    sensitivityFactor := sensitivityFactor
    goalFactor := goalFactor
    intakeFormFactor := intakeFormFactor }

/-- The result record of MicrodoseCalculator.validateParams. -/
structure ValidationResult where
  isValid : Bool
  errors : List String
deriving DecidableEq, Repr

/-- The gender strings accepted by validateParams. -/
def validGenders : List String := ["male", "female", "other"]

/-- The substance strings accepted by validateParams. -/
def validSubstances : List String :=
  ["psilocybin", "lsd", "amanita", "ketamine"]

/-- The goal strings accepted by validateParams. -/
def validGoals : List String := ["sub_perceptual", "standard", "upper_microdose"]

/-- The string of a Substance value, as it crosses the HTTP layer. -/
def substanceString : Substance → String
  | Substance.psilocybin => "psilocybin"
  | Substance.lsd => "lsd"
  | Substance.amanita => "amanita"
  | Substance.ketamine => "ketamine"

/-- The string of a Goal value, as it crosses the HTTP layer. -/
def goalString : Goal → String
  | Goal.sub_perceptual => "sub_perceptual"
  | Goal.standard => "standard"
  | Goal.upper_microdose => "upper_microdose"

/-- MicrodoseCalculator.validateParams. Each if pushes one message;
the conditions translate the JavaScript truthiness guards (a number is
falsy exactly when it is zero, a string exactly when it is empty).
isValid is errors.length === 0. -/
def validateParams (params : MicrodoseCalculationParams) :
    ValidationResult :=
  let errors : List String :=
    (if params.gender = "" ∨ params.gender ∉ validGenders then
      ["Geschlecht ist erforderlich"] else [])
    ++ (if params.weight = 0 ∨ params.weight < 30 ∨ 200 < params.weight then
      ["Gewicht muss zwischen 30 und 200 kg liegen"] else [])
    ++ (if substanceString params.substance = ""
          ∨ substanceString params.substance ∉ validSubstances then
      ["Substanz ist erforderlich"] else [])
    ++ (if params.intakeForm = "" then
      ["Einnahmeform ist erforderlich"] else [])
    ++ (if params.sensitivity = 0 ∨ params.sensitivity < 3/10
          ∨ 2 < params.sensitivity then
      ["Empfindlichkeit muss zwischen 0.3 und 2.0 liegen"] else [])
    ++ (if goalString params.goal = "" ∨ goalString params.goal ∉ validGoals then
      ["Ziel ist erforderlich"] else [])
  { isValid := errors.length == 0, errors := errors }

/-- The protocol type enum of the creation schema. -/
inductive ProtocolType
  | fadiman
  | stamets
  | custom
deriving DecidableEq, Repr

/-- The custom settings object: the selected weekday indices
(0 = Sunday .. 6 = Saturday). -/
structure CustomSettings where
  doseDays : List ℤ
deriving DecidableEq, Repr

/-- The settings object of a protocol. The generator reads only the
custom member (the fadiman and stamets members of the schema are never
read by generateProtocolEvents and are omitted); the member is optional
and may be absent at runtime. -/
structure ProtocolSettings where
  custom : Option CustomSettings := none
deriving DecidableEq, Repr

/-- The fields of a protocol row read by generateProtocolEvents.
startDate is a day number (the source normalises it to UTC midnight);
the endDate column, start of day plus cycleLength * 7 days at end of
day, is recomputed from these two fields where needed. -/
structure Protocol where
  type : ProtocolType
  startDate : ℤ
  cycleLength : ℕ
  settings : ProtocolSettings
deriving DecidableEq, Repr

/-- The fields of the microdose profile read by the generator. -/
structure Profile where
  substance : String
  calculatedDose : ℚ
  doseUnit : String
deriving DecidableEq, Repr

/-- The event type written by the generator. -/
inductive EventType
  | dose
  | pause
deriving DecidableEq, Repr

/-- One created protocolEvent row, with the metadata object flattened
into the meta-prefixed fields. -/
structure ProtocolEvent where
  date : ℤ
  type : EventType
  status : String
  substance : Option String
  dose : Option ℚ
  doseUnit : Option String
  metaDayOfWeek : ℤ
  metaIsDoseDay : Bool
  metaProtocolType : ProtocolType
  metaDaysSinceStart : ℤ
deriving DecidableEq, Repr

/-- JavaScript Date.getDay on the UTC-midnight date of day number d:
day 0 (1970-01-01) was a Thursday, so the weekday index is
(d + 4) mod 7, in [0, 7). -/
def dayOfWeek (d : ℤ) : ℤ := (d + 4) % 7

/-- The isDoseDay flag computed in the loop body of
generateProtocolEvents for the day currentDate: daysSinceStart is
current - startDate in the day-number model. A custom protocol with an
absent settings.custom member (or absent doseDays) leaves the flag
false. -/
def isDoseDay (p : Protocol) (current : ℤ) : Bool :=
  match p.type with
  | ProtocolType.fadiman => decide ((current - p.startDate) % 3 = 0)
  | ProtocolType.stamets => decide ((current - p.startDate) % 7 < 4)
  | ProtocolType.custom =>
      match p.settings.custom with
      | some customSettings => customSettings.doseDays.contains (dayOfWeek current)
      | none => false

/-- The protocolEvent row created in the loop body for the day
current. -/
def mkEvent (p : Protocol) (profile : Profile) (current : ℤ) :
    ProtocolEvent :=
  let dd := isDoseDay p current
  { date := current
    type := if dd then EventType.dose else EventType.pause
    status := "scheduled"
    substance := if dd then some profile.substance else none
    dose := if dd then some profile.calculatedDose else none
    doseUnit := if dd then some profile.doseUnit else none
    metaDayOfWeek := dayOfWeek current
    metaIsDoseDay := dd
    metaProtocolType := p.type
    metaDaysSinceStart := current - p.startDate }

/-- The while loop of generateProtocolEvents: while currentDate is at
most endDate, emit the event of the current day and advance one day.
endDay is the day number of the last included day (the source endDate
sits at 23:59:59.999 of that day, so the midnight of day d satisfies
the comparison exactly when d is at most endDay). -/
def genLoop (p : Protocol) (profile : Profile) (endDay : ℤ)
    (current : ℤ) : List ProtocolEvent :=
  if h : current ≤ endDay then
    mkEvent p profile current :: genLoop p profile endDay (current + 1)
  else
    []
termination_by (endDay + 1 - current).toNat
decreasing_by
  omega

/-- generateProtocolEvents of src/modules/protocol/routes.ts: the loop
runs from startDate to endDate = startDate + cycleLength * 7 days
inclusive. -/
def generateProtocolEvents (p : Protocol) (profile : Profile) :
    List ProtocolEvent :=
  genLoop p profile (p.startDate + (p.cycleLength : ℤ) * 7) p.startDate

/-- Default event record, used only as the fallback of List.getD in
statements indexing into a generated event list. -/
def dfltEvent : ProtocolEvent :=
  { date := 0
    type := EventType.pause
    status := ""
    substance := none
    dose := none
    doseUnit := none
    metaDayOfWeek := 0
    metaIsDoseDay := false
    metaProtocolType := ProtocolType.fadiman
    metaDaysSinceStart := 0 }

/-- Spec-side definition for refinement comparison: the
substance-dependent intake form sets described in the specification
data model (and by the grouping comments of INTAKE_FORM_FACTORS). The
embedded source code itself carries no such per-substance association:
its factor table is keyed by the form name alone. -/
def specIntakeFormsFor : Substance → List String
  | Substance.psilocybin =>
      ["dried_mushrooms", "fresh_mushrooms", "truffles", "pure_extract"]
  | Substance.lsd => ["blotter", "liquid"]
  | Substance.amanita => ["capsules"]
  | Substance.ketamine => ["liquid_ketamine"]

/-- The dose-day classification rule as the specification states it,
for the day with index i (so daysSinceStart = i) of a generated
schedule: fadiman uses daysSinceStart mod 3 = 0, stamets uses
daysSinceStart mod 7 < 4, custom uses membership of the actual
calendar weekday of the day in the configured dose-day set (and is
never a dose day when the custom settings are absent). -/
def specDoseDayRule (p : Protocol) (i : ℕ) : Prop :=
  match p.type with
  | ProtocolType.fadiman => (i : ℤ) % 3 = 0
  | ProtocolType.stamets => (i : ℤ) % 7 < 4
  | ProtocolType.custom =>
      match p.settings.custom with
      | some customSettings =>
          dayOfWeek (p.startDate + (i : ℤ)) ∈ customSettings.doseDays
      | none => False

/-- Convenience constructor for concrete calculation parameters in
witnesses and counterexamples (optional fields absent). -/
def mkParams (g : String) (w : ℚ) (s : Substance) (f : String)
    (sens : ℚ) (gl : Goal) : MicrodoseCalculationParams :=
  { gender := g, weight := w, substance := s, intakeForm := f
    sensitivity := sens, goal := gl }

/-- Concrete profile for witnesses. -/
def exampleProfile : Profile :=
  { substance := "psilocybin", calculatedDose := 200, doseUnit := "mg" }

/-- Concrete fadiman protocol (two-week cycle) for witnesses. -/
def exampleFadiman : Protocol :=
  { type := ProtocolType.fadiman, startDate := 20000, cycleLength := 2
    settings := { custom := none } }

/-- Concrete custom protocol with dose days Monday, Wednesday, Friday
for witnesses. -/
def exampleCustom : Protocol :=
  { type := ProtocolType.custom, startDate := 20000, cycleLength := 2
    settings := { custom := some { doseDays := [1, 3, 5] } } }

/-- Concrete custom protocol with absent custom settings for
witnesses. -/
def exampleCustomEmpty : Protocol :=
  { type := ProtocolType.custom, startDate := 20000, cycleLength := 2
    settings := { custom := none } }

/-- Closed form of the generation loop: starting at day c with last
included day endDay, the loop emits one event per day of the inclusive
range, in order. -/
theorem genLoop_eq_range (p : Protocol) (profile : Profile) (endDay : ℤ) :
    ∀ (n : ℕ) (c : ℤ), endDay + 1 - c = (n : ℤ) →
      genLoop p profile endDay c
        = (List.range n).map (fun (i : ℕ) => mkEvent p profile (c + (i : ℤ))) := by
  intro n
  induction n with
  | zero =>
    intro c hc
    rw [genLoop]
    have hnot : ¬ c ≤ endDay := by omega
    rw [dif_neg hnot]
    simp
  | succ n ih =>
    intro c hc
    have hle : c ≤ endDay := by
      have hcast : ((n + 1 : ℕ) : ℤ) = (n : ℤ) + 1 := by push_cast; ring
      omega
    rw [genLoop, dif_pos hle]
    rw [ih (c + 1) (by push_cast at hc ⊢; omega)]
    rw [List.range_succ_eq_map]
    simp only [List.map_cons, List.map_map, Nat.cast_zero, add_zero]
    congr 1
    apply List.map_congr_left
    intro a _
    simp only [Function.comp_apply]
    congr 1
    push_cast
    ring

/-- generateProtocolEvents in closed form: one event per day index
0 .. cycleLength * 7. -/
theorem generate_eq_range (p : Protocol) (profile : Profile) :
    generateProtocolEvents p profile
      = (List.range (p.cycleLength * 7 + 1)).map
          (fun (i : ℕ) => mkEvent p profile (p.startDate + (i : ℤ))) := by
  unfold generateProtocolEvents
  apply genLoop_eq_range
  push_cast
  ring

/-- Length of the generated list. -/
theorem generate_length (p : Protocol) (profile : Profile) :
    (generateProtocolEvents p profile).length = p.cycleLength * 7 + 1 := by
  rw [generate_eq_range]
  simp

/-- The event at index i of the generated list is the event of day
startDate + i. -/
theorem generate_getD (p : Protocol) (profile : Profile) (i : ℕ)
    (hi : i < p.cycleLength * 7 + 1) :
    (generateProtocolEvents p profile).getD i dfltEvent
      = mkEvent p profile (p.startDate + (i : ℤ)) := by
  rw [generate_eq_range, List.getD_eq_getElem?_getD, List.getElem?_map,
    List.getElem?_range hi]
  rfl

/-- Every base dose of the substance table is positive. -/
theorem baseDose_pos (s : Substance) :
    0 < (SUBSTANCE_BASE_DOSES s).baseDose := by
  cases s <;> norm_num [SUBSTANCE_BASE_DOSES]

/-- The intake form factor used by calculate is positive for every
form string: every table entry is positive and the fallback is 1. -/
theorem intakeFormFactor_pos (f : String) :
    0 < (INTAKE_FORM_FACTORS f).getD 1 := by
  unfold INTAKE_FORM_FACTORS
  split <;> norm_num

/-- The pre-rounding dose, with the goal factor pulled out. -/
theorem rawDose_goal_update (p : MicrodoseCalculationParams) (g : Goal) :
    rawDose { p with goal := g }
      = ((SUBSTANCE_BASE_DOSES p.substance).baseDose * (p.weight / 70)
          * p.sensitivity * (INTAKE_FORM_FACTORS p.intakeForm).getD 1)
        * GOAL_FACTORS g := by
  simp only [rawDose]
  ring

/-- Rounding preserves order: two parameter records over the same
substance with ordered pre-rounding doses give ordered rounded
doses. -/
theorem calculatedDose_mono {p q : MicrodoseCalculationParams}
    (hsub : p.substance = q.substance) (hraw : rawDose p ≤ rawDose q) :
    (calculate p).calculatedDose ≤ (calculate q).calculatedDose := by
  simp only [calculate]
  rw [hsub]
  by_cases h : q.substance = Substance.lsd
  · have hfl : roundHalfUp (rawDose p * 10) ≤ roundHalfUp (rawDose q * 10) := by
      unfold roundHalfUp
      exact Int.floor_le_floor (by linarith)
    simp only [h, if_true, if_pos]
    gcongr
  · have hfl : roundHalfUp (rawDose p) ≤ roundHalfUp (rawDose q) := by
      unfold roundHalfUp
      exact Int.floor_le_floor (by linarith)
    simp only [h, if_false, if_neg]
    exact_mod_cast hfl

/-- An event created by the loop body has type dose exactly when the
isDoseDay flag was set. -/
theorem mkEvent_type_dose_iff (p : Protocol) (profile : Profile)
    (c : ℤ) :
    (mkEvent p profile c).type = EventType.dose ↔ isDoseDay p c = true := by
  cases h : isDoseDay p c <;> simp [mkEvent, h]

/-- The isDoseDay flag, unfolded to the per-type classification
propositions. -/
theorem isDoseDay_iff (p : Protocol) (c : ℤ) :
    isDoseDay p c = true ↔
      (match p.type with
       | ProtocolType.fadiman => (c - p.startDate) % 3 = 0
       | ProtocolType.stamets => (c - p.startDate) % 7 < 4
       | ProtocolType.custom =>
          match p.settings.custom with
          | some customSettings => dayOfWeek c ∈ customSettings.doseDays
          | none => False) := by
  cases ht : p.type with
  | fadiman => simp [isDoseDay, ht]
  | stamets => simp [isDoseDay, ht]
  | custom =>
    cases hcs : p.settings.custom with
    | some customSettings =>
      simp [isDoseDay, ht, hcs, List.contains, List.elem_iff]
    | none => simp [isDoseDay, ht, hcs]

/-- Claim C1: for every parameter record (the substance field carries
the declared union type, so it is always one of the four valid
substances), calculate takes baseDose and doseUnit from the static
substance table and returns the product
baseDose * (weight / 70) * sensitivity * goalFactor * intakeFormFactor
rounded half-up to one decimal place when the unit of the substance is
the microgram unit and to the nearest whole number when it is the
milligram unit. -/
theorem calculate_dose_formula (p : MicrodoseCalculationParams) :
    (calculate p).baseDose = (SUBSTANCE_BASE_DOSES p.substance).baseDose ∧
    (calculate p).doseUnit = (SUBSTANCE_BASE_DOSES p.substance).unit ∧
    (calculate p).calculatedDose =
      (if (SUBSTANCE_BASE_DOSES p.substance).unit = DoseUnit.ug then
        (roundHalfUp (rawDose p * 10) : ℚ) / 10
      else
        (roundHalfUp (rawDose p) : ℚ)) := by
  refine ⟨rfl, rfl, ?_⟩
  cases hs : p.substance <;>
    simp [calculate, SUBSTANCE_BASE_DOSES, hs]

/-- Claim C9: the validity flag of validateParams is true exactly when
the returned error list is empty. -/
theorem validate_isValid_iff_no_errors (p : MicrodoseCalculationParams) :
    (validateParams p).isValid = true ↔ (validateParams p).errors = [] := by
  show ((validateParams p).errors.length == 0) = true
    ↔ (validateParams p).errors = []
  simp [List.length_eq_zero]

/-- For a substance other than lsd, the returned dose is the whole
number rounding of the pre-rounding dose. -/
theorem calculate_dose_eq_of_ne_lsd (p : MicrodoseCalculationParams)
    (h : ¬ p.substance = Substance.lsd) :
    (calculate p).calculatedDose = (roundHalfUp (rawDose p) : ℚ) := by
  simp [calculate, h]

/-- Claim C4 counterexample: the claim says the intake form factor
defaults to 1.0 whenever the supplied form is unrecognized for the
given substance. For the substance lsd the form fresh_mushrooms is not
one of the forms of that substance, yet calculate uses the factor 10.0
of the global table entry of fresh_mushrooms, not the default 1.0. -/
theorem calculate_intakeForm_fallback_counterexample :
    ("fresh_mushrooms" ∉ specIntakeFormsFor Substance.lsd) ∧
    (calculate (mkParams "male" 70 Substance.lsd "fresh_mushrooms" 1
      Goal.standard)).intakeFormFactor = 10 ∧
    (calculate (mkParams "male" 70 Substance.lsd "fresh_mushrooms" 1
      Goal.standard)).intakeFormFactor ≠ 1 := by
  refine ⟨by decide, ?_, ?_⟩ <;>
    norm_num [calculate, mkParams, INTAKE_FORM_FACTORS]

/-- Claim C4 (amended): the intake form factor is a static lookup in
the single global table keyed only by the form name; it defaults to
1.0 exactly when the form is absent from that global table, regardless
of the substance (a form present in the table but documented for a
different substance yields that table entry instead), and calculate is
total, so no error is raised. -/
theorem calculate_intakeForm_fallback (p : MicrodoseCalculationParams)
    (h : INTAKE_FORM_FACTORS p.intakeForm = none) :
    (calculate p).intakeFormFactor = 1 := by
  simp [calculate, h]

/-- Witness for the amended claim C4 at a form absent from the global
table. -/
theorem calculate_intakeForm_fallback_witness :
    INTAKE_FORM_FACTORS "powder" = none ∧
    (calculate (mkParams "male" 70 Substance.psilocybin "powder" 1
      Goal.standard)).intakeFormFactor = 1 :=
  ⟨rfl, calculate_intakeForm_fallback _ rfl⟩

/-- Claim C5 counterexample: the claim says validateParams checks the
intake form against the substance-dependent enum. The form tea_leaves
is not a form of psilocybin (nor of any substance), yet validateParams
accepts the record with an empty error list and isValid true: the
source checks the intake form only for presence. -/
theorem validate_unknown_intakeForm_counterexample :
    ("tea_leaves" ∉ specIntakeFormsFor Substance.psilocybin) ∧
    validateParams (mkParams "male" 70 Substance.psilocybin "tea_leaves" 1
      Goal.standard) = { isValid := true, errors := [] } := by
  refine ⟨by decide, ?_⟩
  norm_num [validateParams, mkParams, validGenders, validSubstances,
    validGoals, substanceString, goalString]
  decide

/-- Claim C5 (amended): validateParams checks gender, substance and
goal for enum membership, weight for the range 30 to 200, sensitivity
for the range 0.3 to 2.0, and the intake form only for presence (a
non-empty string), not for membership in the substance-dependent enum;
the checks are independent, so a record whose only violation is
weight = 250 yields exactly the weight-range error and isValid
false. -/
theorem validate_weight250 (p : MicrodoseCalculationParams)
    (hg : p.gender ∈ validGenders)
    (hf : ¬ p.intakeForm = "")
    (hs1 : 3/10 ≤ p.sensitivity) (hs2 : p.sensitivity ≤ 2)
    (hw : p.weight = 250) :
    validateParams p
      = { isValid := false
          errors := ["Gewicht muss zwischen 30 und 200 kg liegen"] } := by
  have h1 : ¬ (p.gender = "" ∨ p.gender ∉ validGenders) := by
    push_neg
    refine ⟨?_, hg⟩
    intro h0
    rw [h0] at hg
    simp [validGenders] at hg
  have h2 : p.weight = 0 ∨ p.weight < 30 ∨ 200 < p.weight := by
    rw [hw]
    norm_num
  have h3 : ¬ (substanceString p.substance = ""
      ∨ substanceString p.substance ∉ validSubstances) := by
    cases p.substance <;> decide
  have h5 : ¬ (p.sensitivity = 0 ∨ p.sensitivity < 3/10
      ∨ 2 < p.sensitivity) := by
    push_neg
    refine ⟨?_, hs1, hs2⟩
    intro h0
    rw [h0] at hs1
    norm_num at hs1
  have h6 : ¬ (goalString p.goal = "" ∨ goalString p.goal ∉ validGoals) := by
    cases p.goal <;> decide
  unfold validateParams
  rw [if_neg h1, if_pos h2, if_neg h3, if_neg hf, if_neg h5, if_neg h6]
  rfl

/-- Witness for the amended claim C5 at a concrete record whose only
out-of-range field is weight = 250. -/
theorem validate_weight250_witness :
    ((mkParams "male" 250 Substance.psilocybin "dried_mushrooms" 1
      Goal.standard).gender ∈ validGenders) ∧
    (¬ (mkParams "male" 250 Substance.psilocybin "dried_mushrooms" 1
      Goal.standard).intakeForm = "") ∧
    ((3:ℚ)/10 ≤ (mkParams "male" 250 Substance.psilocybin "dried_mushrooms" 1
      Goal.standard).sensitivity) ∧
    ((mkParams "male" 250 Substance.psilocybin "dried_mushrooms" 1
      Goal.standard).sensitivity ≤ 2) ∧
    validateParams (mkParams "male" 250 Substance.psilocybin
      "dried_mushrooms" 1 Goal.standard)
      = { isValid := false
          errors := ["Gewicht muss zwischen 30 und 200 kg liegen"] } :=
  ⟨by decide, by decide, by norm_num [mkParams], by norm_num [mkParams],
    validate_weight250 _ (by decide) (by decide) (by norm_num [mkParams])
      (by norm_num [mkParams]) rfl⟩

/-- Claim C6 counterexample: for the valid record with weight 30,
substance ketamine, form liquid_ketamine and sensitivity 0.3, the
doses of the goals sub_perceptual and standard both round to 1 mg, so
the claimed strict inequality between consecutive goals fails on the
rounded output. -/
theorem calculate_goal_strict_counterexample :
    (validateParams (mkParams "male" 30 Substance.ketamine
      "liquid_ketamine" (3/10) Goal.sub_perceptual)).isValid = true ∧
    (validateParams (mkParams "male" 30 Substance.ketamine
      "liquid_ketamine" (3/10) Goal.standard)).isValid = true ∧
    (calculate (mkParams "male" 30 Substance.ketamine "liquid_ketamine"
      (3/10) Goal.sub_perceptual)).calculatedDose = 1 ∧
    (calculate (mkParams "male" 30 Substance.ketamine "liquid_ketamine"
      (3/10) Goal.standard)).calculatedDose = 1 ∧
    ¬ ((calculate (mkParams "male" 30 Substance.ketamine "liquid_ketamine"
        (3/10) Goal.sub_perceptual)).calculatedDose
      < (calculate (mkParams "male" 30 Substance.ketamine "liquid_ketamine"
        (3/10) Goal.standard)).calculatedDose) := by
  have hsub : (calculate (mkParams "male" 30 Substance.ketamine
      "liquid_ketamine" (3/10) Goal.sub_perceptual)).calculatedDose = 1 := by
    rw [calculate_dose_eq_of_ne_lsd _ (by decide)]
    norm_num [rawDose, mkParams, roundHalfUp, SUBSTANCE_BASE_DOSES,
      GOAL_FACTORS, INTAKE_FORM_FACTORS]
  have hstd : (calculate (mkParams "male" 30 Substance.ketamine
      "liquid_ketamine" (3/10) Goal.standard)).calculatedDose = 1 := by
    rw [calculate_dose_eq_of_ne_lsd _ (by decide)]
    norm_num [rawDose, mkParams, roundHalfUp, SUBSTANCE_BASE_DOSES,
      GOAL_FACTORS, INTAKE_FORM_FACTORS]
  refine ⟨?_, ?_, hsub, hstd, ?_⟩
  · norm_num [validateParams, mkParams, validGenders, validSubstances,
      validGoals, substanceString, goalString]
    decide
  · norm_num [validateParams, mkParams, validGenders, validSubstances,
      validGoals, substanceString, goalString]
    decide
  · rw [hsub, hstd]
    norm_num

/-- Claim C6 (amended): for fixed other parameters with positive
weight and sensitivity, the pre-rounding dose is strictly increasing
across the goals sub_perceptual, standard, upper_microdose, and the
rounded calculatedDose is monotone nondecreasing across them (strictness
can be lost to rounding, as the counterexample shows). -/
theorem calculate_goal_monotone (p : MicrodoseCalculationParams)
    (hw : 0 < p.weight) (hs : 0 < p.sensitivity) :
    rawDose { p with goal := Goal.sub_perceptual }
      < rawDose { p with goal := Goal.standard } ∧
    rawDose { p with goal := Goal.standard }
      < rawDose { p with goal := Goal.upper_microdose } ∧
    (calculate { p with goal := Goal.sub_perceptual }).calculatedDose
      ≤ (calculate { p with goal := Goal.standard }).calculatedDose ∧
    (calculate { p with goal := Goal.standard }).calculatedDose
      ≤ (calculate { p with goal := Goal.upper_microdose }).calculatedDose := by
  have hK : 0 < (SUBSTANCE_BASE_DOSES p.substance).baseDose
      * (p.weight / 70) * p.sensitivity
      * (INTAKE_FORM_FACTORS p.intakeForm).getD 1 :=
    mul_pos
      (mul_pos
        (mul_pos (baseDose_pos p.substance) (div_pos hw (by norm_num))) hs)
      (intakeFormFactor_pos p.intakeForm)
  have e1 := rawDose_goal_update p Goal.sub_perceptual
  have e2 := rawDose_goal_update p Goal.standard
  have e3 := rawDose_goal_update p Goal.upper_microdose
  simp only [GOAL_FACTORS] at e1 e2 e3
  have h12 : rawDose { p with goal := Goal.sub_perceptual }
      < rawDose { p with goal := Goal.standard } := by
    rw [e1, e2]
    nlinarith [hK]
  have h23 : rawDose { p with goal := Goal.standard }
      < rawDose { p with goal := Goal.upper_microdose } := by
    rw [e2, e3]
    nlinarith [hK]
  exact ⟨h12, h23, calculatedDose_mono rfl h12.le,
    calculatedDose_mono rfl h23.le⟩

/-- Witness for the amended claim C6 at the reference record. -/
theorem calculate_goal_monotone_witness :
    ((0:ℚ) < (mkParams "male" 70 Substance.psilocybin "dried_mushrooms" 1
      Goal.standard).weight) ∧
    ((0:ℚ) < (mkParams "male" 70 Substance.psilocybin "dried_mushrooms" 1
      Goal.standard).sensitivity) ∧
    (rawDose { mkParams "male" 70 Substance.psilocybin "dried_mushrooms" 1
        Goal.standard with goal := Goal.sub_perceptual }
      < rawDose { mkParams "male" 70 Substance.psilocybin "dried_mushrooms" 1
        Goal.standard with goal := Goal.standard } ∧
    rawDose { mkParams "male" 70 Substance.psilocybin "dried_mushrooms" 1
        Goal.standard with goal := Goal.standard }
      < rawDose { mkParams "male" 70 Substance.psilocybin "dried_mushrooms" 1
        Goal.standard with goal := Goal.upper_microdose } ∧
    (calculate { mkParams "male" 70 Substance.psilocybin "dried_mushrooms" 1
        Goal.standard with goal := Goal.sub_perceptual }).calculatedDose
      ≤ (calculate { mkParams "male" 70 Substance.psilocybin "dried_mushrooms" 1
        Goal.standard with goal := Goal.standard }).calculatedDose ∧
    (calculate { mkParams "male" 70 Substance.psilocybin "dried_mushrooms" 1
        Goal.standard with goal := Goal.standard }).calculatedDose
      ≤ (calculate { mkParams "male" 70 Substance.psilocybin "dried_mushrooms" 1
        Goal.standard with goal := Goal.upper_microdose }).calculatedDose) :=
  ⟨by norm_num [mkParams], by norm_num [mkParams],
    calculate_goal_monotone _ (by norm_num [mkParams])
      (by norm_num [mkParams])⟩

/-- Claim C7 counterexample: doubling the weight from 33 kg to 66 kg
for ketamine at standard goal does not double the rounded
calculatedDose: 33 kg gives 5 mg and 66 kg gives 9 mg, not 10 mg.
Both weights lie inside the validated range. -/
theorem calculate_weight_double_counterexample :
    (validateParams (mkParams "male" 33 Substance.ketamine
      "liquid_ketamine" 1 Goal.standard)).isValid = true ∧
    (validateParams (mkParams "male" 66 Substance.ketamine
      "liquid_ketamine" 1 Goal.standard)).isValid = true ∧
    (calculate (mkParams "male" 33 Substance.ketamine "liquid_ketamine" 1
      Goal.standard)).calculatedDose = 5 ∧
    (calculate (mkParams "male" 66 Substance.ketamine "liquid_ketamine" 1
      Goal.standard)).calculatedDose = 9 ∧
    (calculate (mkParams "male" 66 Substance.ketamine "liquid_ketamine" 1
        Goal.standard)).calculatedDose
      ≠ 2 * (calculate (mkParams "male" 33 Substance.ketamine
        "liquid_ketamine" 1 Goal.standard)).calculatedDose := by
  have h33 : (calculate (mkParams "male" 33 Substance.ketamine
      "liquid_ketamine" 1 Goal.standard)).calculatedDose = 5 := by
    rw [calculate_dose_eq_of_ne_lsd _ (by decide)]
    norm_num [rawDose, mkParams, roundHalfUp, SUBSTANCE_BASE_DOSES,
      GOAL_FACTORS, INTAKE_FORM_FACTORS]
  have h66 : (calculate (mkParams "male" 66 Substance.ketamine
      "liquid_ketamine" 1 Goal.standard)).calculatedDose = 9 := by
    rw [calculate_dose_eq_of_ne_lsd _ (by decide)]
    norm_num [rawDose, mkParams, roundHalfUp, SUBSTANCE_BASE_DOSES,
      GOAL_FACTORS, INTAKE_FORM_FACTORS]
  refine ⟨?_, ?_, h33, h66, ?_⟩
  · norm_num [validateParams, mkParams, validGenders, validSubstances,
      validGoals, substanceString, goalString]
    decide
  · norm_num [validateParams, mkParams, validGenders, validSubstances,
      validGoals, substanceString, goalString]
    decide
  · rw [h33, h66]
    norm_num

/-- Claim C7 (amended): doubling the weight, with every other
parameter fixed, doubles the weight factor and doubles the
pre-rounding dose; the returned calculatedDose is that doubled value
only up to the final rounding step (the counterexample shows rounding
can break exact doubling). -/
theorem calculate_weight_double (p : MicrodoseCalculationParams) :
    (calculate { p with weight := 2 * p.weight }).weightFactor
      = 2 * (calculate p).weightFactor ∧
    rawDose { p with weight := 2 * p.weight } = 2 * rawDose p := by
  constructor <;> simp [calculate, rawDose] <;> ring

/-- Claim C2: for a protocol with cycle length between 2 and 6 weeks
and a day-boundary start date, the generator returns exactly
cycleLength * 7 + 1 events, and the event at index i carries the date
startDate + i — so the dates are exactly the inclusive calendar range
from startDate to startDate + cycleLength * 7, strictly ascending and
contiguous, with no gaps and no duplicates, for every protocol
type. -/
theorem generate_event_count_and_dates (p : Protocol) (profile : Profile)
    (h2 : 2 ≤ p.cycleLength) (h6 : p.cycleLength ≤ 6) :
    (generateProtocolEvents p profile).length = p.cycleLength * 7 + 1 ∧
    ∀ i : ℕ, i < p.cycleLength * 7 + 1 →
      ((generateProtocolEvents p profile).getD i dfltEvent).date
        = p.startDate + (i : ℤ) := by
  refine ⟨generate_length p profile, ?_⟩
  intro i hi
  rw [generate_getD p profile i hi]
  rfl

/-- Witness for claim C2 at a concrete two-week fadiman protocol. -/
theorem generate_event_count_and_dates_witness :
    2 ≤ exampleFadiman.cycleLength ∧ exampleFadiman.cycleLength ≤ 6 ∧
    ((generateProtocolEvents exampleFadiman exampleProfile).length
        = exampleFadiman.cycleLength * 7 + 1 ∧
      ∀ i : ℕ, i < exampleFadiman.cycleLength * 7 + 1 →
        ((generateProtocolEvents exampleFadiman exampleProfile).getD i
            dfltEvent).date = exampleFadiman.startDate + (i : ℤ)) :=
  ⟨by decide, by decide,
    generate_event_count_and_dates exampleFadiman exampleProfile
      (by decide) (by decide)⟩

/-- Claim C3: the event at index i of the generated range has type
dose exactly when the per-type rule of the specification holds for
that day: daysSinceStart mod 3 = 0 for fadiman, daysSinceStart mod 7
less than 4 for stamets, and for custom membership of the actual
calendar weekday of the day in the configured dose-day set (set
membership, hence order-independent, and not based on
daysSinceStart). -/
theorem generate_event_type_rule (p : Protocol) (profile : Profile)
    (i : ℕ) (hi : i < p.cycleLength * 7 + 1) :
    (((generateProtocolEvents p profile).getD i dfltEvent).type
        = EventType.dose ↔ specDoseDayRule p i) := by
  rw [generate_getD p profile i hi, mkEvent_type_dose_iff, isDoseDay_iff]
  cases ht : p.type with
  | fadiman => simp [specDoseDayRule, ht, add_sub_cancel_left]
  | stamets => simp [specDoseDayRule, ht, add_sub_cancel_left]
  | custom => simp [specDoseDayRule, ht]

/-- Witness for claim C3 at a concrete custom protocol and day
index 0. -/
theorem generate_event_type_rule_witness :
    (0 < exampleCustom.cycleLength * 7 + 1) ∧
    (((generateProtocolEvents exampleCustom exampleProfile).getD 0
        dfltEvent).type = EventType.dose
      ↔ specDoseDayRule exampleCustom 0) :=
  ⟨by decide,
    generate_event_type_rule exampleCustom exampleProfile 0 (by decide)⟩

/-- Claim C8: every generated event of type dose carries the
substance, dose and dose unit of the supplied profile triple, and
every generated event of type pause carries null (none) in those three
fields. -/
theorem generate_event_dose_fields (p : Protocol) (profile : Profile)
    (i : ℕ) (hi : i < p.cycleLength * 7 + 1) :
    (((generateProtocolEvents p profile).getD i dfltEvent).type
        = EventType.dose →
      ((generateProtocolEvents p profile).getD i dfltEvent).substance
          = some profile.substance ∧
      ((generateProtocolEvents p profile).getD i dfltEvent).dose
          = some profile.calculatedDose ∧
      ((generateProtocolEvents p profile).getD i dfltEvent).doseUnit
          = some profile.doseUnit) ∧
    (((generateProtocolEvents p profile).getD i dfltEvent).type
        = EventType.pause →
      ((generateProtocolEvents p profile).getD i dfltEvent).substance
          = none ∧
      ((generateProtocolEvents p profile).getD i dfltEvent).dose = none ∧
      ((generateProtocolEvents p profile).getD i dfltEvent).doseUnit
          = none) := by
  rw [generate_getD p profile i hi]
  cases h : isDoseDay p (p.startDate + (i : ℤ)) <;> simp [mkEvent, h]

/-- Witness for claim C8 at a concrete fadiman protocol and day
index 0. -/
theorem generate_event_dose_fields_witness :
    (0 < exampleFadiman.cycleLength * 7 + 1) ∧
    ((((generateProtocolEvents exampleFadiman exampleProfile).getD 0
        dfltEvent).type = EventType.dose →
      ((generateProtocolEvents exampleFadiman exampleProfile).getD 0
          dfltEvent).substance = some exampleProfile.substance ∧
      ((generateProtocolEvents exampleFadiman exampleProfile).getD 0
          dfltEvent).dose = some exampleProfile.calculatedDose ∧
      ((generateProtocolEvents exampleFadiman exampleProfile).getD 0
          dfltEvent).doseUnit = some exampleProfile.doseUnit) ∧
    (((generateProtocolEvents exampleFadiman exampleProfile).getD 0
        dfltEvent).type = EventType.pause →
      ((generateProtocolEvents exampleFadiman exampleProfile).getD 0
          dfltEvent).substance = none ∧
      ((generateProtocolEvents exampleFadiman exampleProfile).getD 0
          dfltEvent).dose = none ∧
      ((generateProtocolEvents exampleFadiman exampleProfile).getD 0
          dfltEvent).doseUnit = none)) :=
  ⟨by decide,
    generate_event_dose_fields exampleFadiman exampleProfile 0 (by decide)⟩

/-- Claim C10: a custom protocol whose custom settings are absent, or
whose dose-day set is empty, still generates the full
cycleLength * 7 + 1 event sequence, with every event classified as
pause. -/
theorem generate_custom_empty_all_pause (p : Protocol) (profile : Profile)
    (ht : p.type = ProtocolType.custom)
    (hcs : p.settings.custom = none
      ∨ ∃ cs, p.settings.custom = some cs ∧ cs.doseDays = []) :
    (generateProtocolEvents p profile).length = p.cycleLength * 7 + 1 ∧
    ∀ i : ℕ, i < p.cycleLength * 7 + 1 →
      ((generateProtocolEvents p profile).getD i dfltEvent).type
        = EventType.pause := by
  refine ⟨generate_length p profile, ?_⟩
  intro i hi
  rw [generate_getD p profile i hi]
  have hdd : isDoseDay p (p.startDate + (i : ℤ)) = false := by
    rcases hcs with h | ⟨cs, hsome, hnil⟩
    · simp [isDoseDay, ht, h]
    · simp [isDoseDay, ht, hsome, hnil]
  simp [mkEvent, hdd]

/-- Witness for claim C10 at a concrete custom protocol with absent
custom settings. -/
theorem generate_custom_empty_all_pause_witness :
    exampleCustomEmpty.type = ProtocolType.custom ∧
    exampleCustomEmpty.settings.custom = none ∧
    ((generateProtocolEvents exampleCustomEmpty exampleProfile).length
        = exampleCustomEmpty.cycleLength * 7 + 1 ∧
      ∀ i : ℕ, i < exampleCustomEmpty.cycleLength * 7 + 1 →
        ((generateProtocolEvents exampleCustomEmpty exampleProfile).getD i
            dfltEvent).type = EventType.pause) :=
  ⟨rfl, rfl,
    generate_custom_empty_all_pause exampleCustomEmpty exampleProfile
      rfl (Or.inl rfl)⟩

end Microdose
